import Mathlib

/-!
Verification of the interview-assistant renderer workflow.

Shallow embedding of the React renderer components:
  - `QuestionsPanel.jsx` (recording / transcription / answer submission /
    final evaluation),
  - `JDInput` (job-description form and question generation),
  - `AudioUploader.jsx` (standalone audio upload).

JavaScript objects used as string-keyed maps (`answers`, `feedbacks`,
`grades`, `techStackGrades`) are embedded as association lists with
insertion-order keys (`JsMap`).  React `useState` state is gathered into
explicit state records; each event handler becomes a function from state
(plus the backend response, which is external input) to the new state
together with the list of observable effects it performs (HTTP requests,
alerts, device acquisition).  Asynchronous handlers that span an `await`
are split into a begin part (up to the request) and a completion part
(response handling), composed for the whole-handler behaviour.
-/

/-- A JavaScript object used as a string-keyed map: association list,
first occurrence of a key is its binding; `set` replaces in place or
appends (JS object insertion-order semantics). -/
structure JsMap (α : Type) where
  entries : List (String × α)
deriving DecidableEq

namespace JsMap

/-- Property lookup on the underlying entry list (first binding wins). -/
def getEntries : List (String × α) → String → Option α
  | [], _ => none
  | (k', v) :: rest, k => if k' = k then some v else getEntries rest k

/-- Property lookup `m[k]`: `none` plays the role of `undefined`. -/
def get (m : JsMap α) (k : String) : Option α :=
  getEntries m.entries k

/-- Replace the first binding of `k`, or append a new one. -/
def setEntries : List (String × α) → String → α → List (String × α)
  | [], k, v => [(k, v)]
  | (k', v') :: rest, k, v =>
      if k' = k then (k, v) :: rest else (k', v') :: setEntries rest k v

/-- Spread-update `{ ...m, [k]: v }`. -/
def set (m : JsMap α) (k : String) (v : α) : JsMap α :=
  ⟨setEntries m.entries k v⟩

/-- JS `Object.keys(m)`. -/
def keys (m : JsMap α) : List String :=
  m.entries.map Prod.fst

/-- JS `Object.keys(m).length`. -/
def size (m : JsMap α) : Nat :=
  m.entries.length

/-- The empty object `{}`. -/
def empty : JsMap α := ⟨[]⟩

@[simp] theorem get_empty (k : String) : (empty : JsMap α).get k = none := rfl

theorem getEntries_setEntries (l : List (String × α)) (k k' : String) (v : α) :
    getEntries (setEntries l k v) k' =
      if k' = k then some v else getEntries l k' := by
  induction l with
  | nil =>
      by_cases h : k' = k
      · subst h; simp [setEntries, getEntries]
      · have h2 : ¬ k = k' := fun e => h e.symm
        simp [setEntries, getEntries, h, h2]
  | cons p rest ih =>
      rcases p with ⟨a, b⟩
      by_cases hak : a = k
      · subst hak
        by_cases h : k' = a
        · subst h; simp [setEntries, getEntries]
        · have h2 : ¬ a = k' := fun e => h e.symm
          simp [setEntries, getEntries, h, h2]
      · by_cases h1 : a = k'
        · have h2 : ¬ k' = k := fun e => hak (h1.trans e)
          simp [setEntries, getEntries, hak, h1, h2]
        · simp [setEntries, getEntries, hak, h1, ih]

theorem get_set (m : JsMap α) (k k' : String) (v : α) :
    (m.set k v).get k' = if k' = k then some v else m.get k' := by
  rcases m with ⟨l⟩
  exact getEntries_setEntries l k k' v

theorem mem_keys_iff_get_isSome (m : JsMap α) (k : String) :
    k ∈ m.keys ↔ (m.get k).isSome := by
  rcases m with ⟨l⟩
  induction l with
  | nil => simp [keys, get, getEntries]
  | cons p rest ih =>
      rcases p with ⟨a, b⟩
      by_cases h : a = k
      · simp [keys, get, getEntries, h]
      · have h2 : ¬ k = a := fun e => h e.symm
        simp only [keys, get, getEntries] at ih ⊢
        simp [h, h2, ih]

end JsMap

/-! ## Data model (shapes of the backend payloads used by the renderer) -/

/-- One element of `questions.tech_questions`. -/
structure TechQuestion where
  question : String
  technology : String
deriving DecidableEq

/-- The `questions` prop of `QuestionsPanel` (fields already defaulted with
`|| []` as in QuestionsPanel.jsx lines 17-19). -/
structure Questions where
  general_questions : List String
  tech_questions : List TechQuestion
  tech_stack : List String
deriving DecidableEq

/-- Embeds `allQuestions = [...generalQuestions, ...techQuestions.map(tq => tq.question)]`. -/
def allQuestions (qs : Questions) : List String :=
  qs.general_questions ++ qs.tech_questions.map TechQuestion.question

/-- One element of the `qa_pairs` array sent to `/final-evaluation`. -/
structure QaPair where
  question : String
  answer : String
  feedback : String
deriving DecidableEq

/-- Body of a `/final-evaluation` response, as read by the panel
(`success`, the four text sections, `overall_score`, optional `error`). -/
structure FinalRespBody where
  success : Bool
  overall_score : Int
  strengths : String
  areas_for_improvement : String
  technical_assessment : String
  recommendations : String
  error : Option String
deriving DecidableEq

/-! ## JavaScript semantics helpers -/

/-- JS `String.prototype.trim()`: strip whitespace from both ends. -/
def jsTrim (s : String) : String :=
  String.mk (((s.toList.dropWhile Char.isWhitespace).reverse.dropWhile
    Char.isWhitespace).reverse)

/-- JS `a || b` on an optional string `a` (`undefined` and `""` are falsy). -/
def jsOrOpt (a : Option String) (b : Option String) : Option String :=
  match a with
  | some s => if s = "" then b else some s
  | none => b

/-- JS `a || d` where `a` is an optional string and `d` a default string. -/
def jsOrStr (a : Option String) (d : String) : String :=
  match a with
  | some s => if s = "" then d else s
  | none => d

/-- JS `parseInt` on a string: skip leading whitespace, optional sign,
longest leading digit run; `none` for `NaN`. -/
def jsParseInt (s : String) : Option Int :=
  let cs := s.toList.dropWhile (fun c => c = ' ' || c = '\t' || c = '\n' || c = '\r')
  let signAndRest : Int × List Char :=
    match cs with
    | '-' :: rest => (-1, rest)
    | '+' :: rest => (1, rest)
    | _ => (1, cs)
  let digits := signAndRest.2.takeWhile Char.isDigit
  if digits.isEmpty then none
  else some (signAndRest.1 *
    (digits.foldl (fun acc c => acc * 10 + (c.toNat - '0'.toNat)) 0 : Nat))

/-! ## Observable effects of the handlers -/

/-- Observable side effects a handler performs, in order: HTTP requests to
the backend, `alert` calls, and audio-capture device interaction. -/
inductive Effect where
  /-- Request `POST /transcribe-audio` (multipart upload of the recorded blob). -/
  | transcribeCall
  /-- Request `POST /evaluate-answer` with body question, answer, technology. -/
  | evaluateCall (question : String) (answer : String) (technology : Option String)
  /-- Request `POST /final-evaluation` with body job_description, qa_pairs,
  candidate_name, years_experience. -/
  | finalEvalCall (job_description : String) (qa_pairs : List QaPair)
      (candidate_name : String) (years_experience : String)
  /-- Request `POST /generate-questions` with body job_description,
  num_questions, years_experience. -/
  | generateCall (job_description : String) (num_questions : Int)
      (years_experience : String)
  /-- Call to getUserMedia with audio true succeeded: a new
  audio capture session exists. -/
  | acquireDevice
  /-- Call `mediaRecorder.current.stop()`: the recorder whose onstop closure
  targets `question` will fire. -/
  | recorderStop (question : String)
  /-- Call `track.stop()` on every track of the recorder stream. -/
  | releaseTracks
  /-- Call `alert(msg)`. -/
  | alertMsg (msg : String)
deriving DecidableEq

/-- Is this effect a `POST /evaluate-answer` request? -/
def Effect.isEvaluateCall : Effect → Bool
  | .evaluateCall _ _ _ => true
  | _ => false

/-- Is this effect a `POST /final-evaluation` request? -/
def Effect.isFinalEvalCall : Effect → Bool
  | .finalEvalCall _ _ _ _ => true
  | _ => false

/-- Is this effect a `POST /generate-questions` request? -/
def Effect.isGenerateCall : Effect → Bool
  | .generateCall _ _ _ => true
  | _ => false

/-- Is this effect an `alert`? -/
def Effect.isAlert : Effect → Bool
  | .alertMsg _ => true
  | _ => false

/-- Is this effect a `getUserMedia` device acquisition (the creation of a
new capture session)? -/
def Effect.isAcquireDevice : Effect → Bool
  | .acquireDevice => true
  | _ => false

/-! ## QuestionsPanel state -/

/-- The `useState`/`useRef` state of `QuestionsPanel`.  `mediaRecorder` is
`some q` when a `MediaRecorder` object exists whose `onstop` closure
targets question `q` (the `question` argument captured by
`startRecording`); the ref is never reset to `null` by the component. -/
structure PanelState where
  answers : JsMap String
  feedbacks : JsMap String
  techStackGrades : JsMap Int
  grades : JsMap Int
  isRecording : Bool
  activeQuestion : Option String
  isEvaluating : Bool
  evaluation : Option FinalRespBody
  yearsExperience : String
  mediaRecorder : Option String
deriving DecidableEq

/-- The initial state of `QuestionsPanel` (all `useState` initialisers). -/
def initialPanelState : PanelState where
  answers := JsMap.empty
  feedbacks := JsMap.empty
  techStackGrades := JsMap.empty
  grades := JsMap.empty
  isRecording := false
  activeQuestion := none
  isEvaluating := false
  evaluation := none
  yearsExperience := ""
  mediaRecorder := none

/-! ## Backend responses (external inputs to the handlers) -/

/-- Outcome of the `POST /evaluate-answer` round trip inside
`handleSubmit`: either a response carrying `grade` and `feedback`, or a
thrown error (network failure or the like). -/
inductive EvalResponse where
  | ok (grade : Int) (feedback : String)
  | err
deriving DecidableEq

/-- Outcome of the `POST /transcribe-audio` round trip inside the
`onstop` handler.  `ok data`: a response arrived; the outer `Option` is
the presence of `transcribeRes.data`, the inner one the presence of its
`transcript` field.  `err msg`: axios threw with message `msg`. -/
inductive TranscribeResponse where
  | ok (data : Option (Option String))
  | err (msg : String)
deriving DecidableEq

/-- Outcome of the `POST /final-evaluation` round trip: a response body,
or a thrown error with message `msg`. -/
inductive FinalResponse where
  | ok (body : FinalRespBody)
  | err (msg : String)
deriving DecidableEq

/-! ## QuestionsPanel handlers -/

/-- Handler `handleSubmit(question, answerText)` (QuestionsPanel.jsx 117-146),
parameterised by the backend outcome `resp`.
`answer = answerText || answers[question]`; empty or whitespace-only
answers are refused with an alert and no request; otherwise one
`/evaluate-answer` request is made and, on success, `feedbacks`,
`grades` and (for a technical question) `techStackGrades` are updated. -/
def handleSubmit (qs : Questions) (s : PanelState) (question : String)
    (answerText : Option String) (resp : EvalResponse) :
    PanelState × List Effect :=
  match jsOrOpt answerText (s.answers.get question) with
  | none => (s, [Effect.alertMsg "Please provide an answer before submitting."])
  | some answer =>
    if jsTrim answer = "" then
      (s, [Effect.alertMsg "Please provide an answer before submitting."])
    else
      let techQuestion := qs.tech_questions.find? (fun tq => tq.question = question)
      let call := Effect.evaluateCall question answer
        (techQuestion.map TechQuestion.technology)
      match resp with
      | .ok grade feedback =>
        let s1 := { s with
          feedbacks := s.feedbacks.set question feedback
          grades := s.grades.set question grade }
        let s2 := match techQuestion with
          | some tq =>
            { s1 with techStackGrades := s1.techStackGrades.set tq.technology grade }
          | none => s1
        (s2, [call])
      | .err =>
        (s, [call, Effect.alertMsg "Failed to evaluate answer. Please try again."])

/-- The `mediaRecorder.current.onstop` handler (QuestionsPanel.jsx 35-75)
for the recorder whose closure captured `question`: posts the recorded
audio for transcription; a missing/empty `transcript` field throws and is
caught by the surrounding try/catch (alert, nothing stored); a valid
transcript is stored in `answers` and then auto-submitted via
`handleSubmit(question, transcription)`. -/
def onstop (qs : Questions) (s : PanelState) (question : String)
    (tresp : TranscribeResponse) (eresp : EvalResponse) :
    PanelState × List Effect :=
  match tresp with
  | .err msg =>
      (s, [Effect.transcribeCall,
           Effect.alertMsg ("Failed to transcribe audio: " ++ msg)])
  | .ok data =>
    match data with
    | some (some t) =>
      if t = "" then
        (s, [Effect.transcribeCall,
             Effect.alertMsg
               "Failed to transcribe audio: Invalid response format from server"])
      else
        let s1 := { s with answers := s.answers.set question t }
        let r := handleSubmit qs s1 question (some t) eresp
        (r.1, Effect.transcribeCall :: r.2)
    | _ =>
      (s, [Effect.transcribeCall,
           Effect.alertMsg
             "Failed to transcribe audio: Invalid response format from server"])

/-- Handler `startRecording(question)` (QuestionsPanel.jsx 22-102), parameterised
by whether `getUserMedia` succeeds.  On success a new `MediaRecorder` is
created, `activeQuestion` is set and `isRecording` becomes true; on
denial an alert is shown and the state is unchanged. -/
def startRecording (s : PanelState) (question : String) (granted : Bool) :
    PanelState × List Effect :=
  if granted then
    ({ s with
        mediaRecorder := some question
        activeQuestion := some question
        isRecording := true },
     [Effect.acquireDevice])
  else
    (s, [Effect.alertMsg
      "Microphone access denied. Please allow microphone access to record your answers."])

/-- Handler `stopRecording()` (QuestionsPanel.jsx 104-115): guarded by
`mediaRecorder.current && isRecording`; when active, stops the recorder
(its `onstop` will fire later), releases the stream tracks, resets
`isRecording` and `activeQuestion`; otherwise does nothing. -/
def stopRecording (s : PanelState) : PanelState × List Effect :=
  match s.mediaRecorder, s.isRecording with
  | some q, true =>
      ({ s with isRecording := false, activeQuestion := none },
       [Effect.recorderStop q, Effect.releaseTracks])
  | _, _ => (s, [])

/-- The record-button area rendered for question `q` (QuestionsPanel.jsx
205-236 and 304-334): while recording the active question the button is
`Stop Recording`; for any other question the `Record Answer` button is
rendered with `disabled={isRecording}`, so a click does nothing; when not
recording, a click invokes `startRecording(q)`. -/
def clickRecordButton (s : PanelState) (q : String) (granted : Bool) :
    PanelState × List Effect :=
  if s.isRecording then
    if s.activeQuestion = some q then stopRecording s
    else (s, [])
  else
    startRecording s q granted

/-- The `qa_pairs` array built by `handleFinalEvaluation` (QuestionsPanel.jsx
157-161): one entry per question of `allQuestions`, with
the answer defaulted to the sentinel "No answer provided" and the
feedback defaulted to the empty string (JS falsy-or). -/
def mkQaPairs (qs : Questions) (s : PanelState) : List QaPair :=
  (allQuestions qs).map (fun q =>
    { question := q
      answer := jsOrStr (s.answers.get q) "No answer provided"
      feedback := jsOrStr (s.feedbacks.get q) "" })

/-- The synchronous prefix of `handleFinalEvaluation` (QuestionsPanel.jsx
148-168), up to and including issuing the request: with no answered
question it alerts and returns; otherwise it sets `isEvaluating` and
issues exactly one `/final-evaluation` request built from `mkQaPairs`. -/
def handleFinalEvaluationBegin (qs : Questions) (s : PanelState)
    (jobDescription candidateName : String) : PanelState × List Effect :=
  if s.answers.size = 0 then
    (s, [Effect.alertMsg "Please answer at least one question before final evaluation."])
  else
    ({ s with isEvaluating := true },
     [Effect.finalEvalCall jobDescription (mkQaPairs qs s) candidateName
        s.yearsExperience])

/-- The continuation of `handleFinalEvaluation` after the `await`
(QuestionsPanel.jsx 170-180): on `success` the body is stored in
`evaluation`; on `success=false` the handler throws and the catch alerts
with the server-supplied `error` (or the default message); a thrown
request error is alerted likewise.  The `finally` block resets
`isEvaluating` on every path. -/
def handleFinalEvaluationComplete (s : PanelState) (resp : FinalResponse) :
    PanelState × List Effect :=
  match resp with
  | .ok body =>
    if body.success then
      ({ s with evaluation := some body, isEvaluating := false }, [])
    else
      ({ s with isEvaluating := false },
       [Effect.alertMsg
          ("Error: " ++ jsOrStr body.error "Failed to generate evaluation")])
  | .err msg =>
      ({ s with isEvaluating := false }, [Effect.alertMsg ("Error: " ++ msg)])

/-- Whole `handleFinalEvaluation` run: the begin part followed, when a
request was actually issued, by the completion part for outcome `resp`. -/
def handleFinalEvaluation (qs : Questions) (s : PanelState)
    (jobDescription candidateName : String) (resp : FinalResponse) :
    PanelState × List Effect :=
  let r1 := handleFinalEvaluationBegin qs s jobDescription candidateName
  if s.answers.size = 0 then r1
  else
    let r2 := handleFinalEvaluationComplete r1.1 resp
    (r2.1, r1.2 ++ r2.2)

/-- The `Generate Final Evaluation` button (QuestionsPanel.jsx 391-406):
`disabled={isEvaluating || Object.keys(answers).length === 0}`; a click on
the enabled button starts `handleFinalEvaluation`. -/
def clickFinalEvaluation (qs : Questions) (s : PanelState)
    (jobDescription candidateName : String) : PanelState × List Effect :=
  if s.isEvaluating || s.answers.size == 0 then (s, [])
  else handleFinalEvaluationBegin qs s jobDescription candidateName

/-! ## JDInput (job-description form) -/

/-- The `useState` state of `JDInput`. -/
structure JDState where
  jd : String
  candidateName : String
  techStacks : List String
  numQuestions : Int
  yearsExperience : String
deriving DecidableEq

/-- The `onChange` handler of the numQuestions input (JDInput line 79):
`setNumQuestions(parseInt(e.target.value) || 5)`.  `NaN` and `0` are
falsy and fall back to `5`; every other parsed value — including values
outside the min=1/max=20 input attributes, which do not constrain
typed text — is stored unchanged. -/
def setNumQuestionsFromInput (value : String) : Int :=
  match jsParseInt value with
  | none => 5
  | some n => if n = 0 then 5 else n

/-- Outcome of the `POST /generate-questions` round trip. -/
inductive GenerateResponse where
  | ok (questions : Questions)
  | err
deriving DecidableEq

/-- App-level state written by `JDInput` through its props
(`setJobDescription`, `onCandidateNameChange`, `setQuestions`) plus the
component-local `techStacks`. -/
structure AppFormState where
  jobDescription : String
  candidateName : String
  questions : Option Questions
  techStacks : List String
deriving DecidableEq

/-- Handler `handleGenerate` (JDInput lines 11-38): empty/whitespace-only job
description or candidate name is refused with an alert and no request;
otherwise the props are updated and one `/generate-questions` request is
issued with the current `numQuestions` value, unvalidated. -/
def handleGenerate (s : JDState) (ctx : AppFormState) (resp : GenerateResponse) :
    AppFormState × List Effect :=
  if jsTrim s.jd = "" then
    (ctx, [Effect.alertMsg "Please enter a job description"])
  else if jsTrim s.candidateName = "" then
    (ctx, [Effect.alertMsg "Please enter the candidate's name"])
  else
    let ctx1 := { ctx with jobDescription := s.jd, candidateName := s.candidateName }
    let call := Effect.generateCall s.jd s.numQuestions s.yearsExperience
    match resp with
    | .ok qd =>
        ({ ctx1 with questions := some qd, techStacks := qd.tech_stack }, [call])
    | .err =>
        (ctx1, [call,
          Effect.alertMsg "Failed to generate questions. Please try again."])

/-! ## AudioUploader -/

/-- The `useState` state of `AudioUploader`; `transcript` is `none` when
the JS value is `undefined`. -/
structure UploaderState where
  transcript : Option String
deriving DecidableEq

/-- Initial `AudioUploader` state (`useState("")`). -/
def initialUploaderState : UploaderState := ⟨some ""⟩

/-- Handler `handleUpload` (AudioUploader.jsx 7-13): posts the chosen file and
stores `res.data.transcript` unconditionally — there is no check that the
field is present and no catch; a missing field stores `undefined`
silently. -/
def handleUpload (_s : UploaderState) (respTranscript : Option String) :
    UploaderState × List Effect :=
  ({ transcript := respTranscript }, [Effect.transcribeCall])

/-! ## Evaluation traces (for the Technology Grade Aggregate) -/

/-- One answer-submission round in a session: the submitted question, the
answer text handed to `handleSubmit`, and the backend outcome. -/
structure EvalEvent where
  question : String
  answerText : String
  resp : EvalResponse
deriving DecidableEq

/-- The state change of one submission round. -/
def evalStep (qs : Questions) (s : PanelState) (e : EvalEvent) : PanelState :=
  (handleSubmit qs s e.question (some e.answerText) e.resp).1

/-- Fold a whole list of submission rounds over the panel state. -/
def applyEvals (qs : Questions) (s : PanelState) (evs : List EvalEvent) : PanelState :=
  evs.foldl (evalStep qs) s

/-- The grade event `e` contributes to technology `t`: its grade if the
submission went through (non-blank answer), the backend succeeded, and
the submitted question is a technical question tagged `t`. -/
def relevantGrade (qs : Questions) (e : EvalEvent) (t : String) : Option Int :=
  if jsTrim e.answerText = "" then none
  else
    match e.resp with
    | .ok g _ =>
      match qs.tech_questions.find? (fun tq => tq.question = e.question) with
      | some tq => if t = tq.technology then some g else none
      | none => none
    | .err => none

/-- The most recent grade for technology `t` in a trace: later events
(applied later by the fold) win. -/
def lastRelevant (qs : Questions) : List EvalEvent → String → Option Int
  | [], _ => none
  | e :: rest, t =>
      match lastRelevant qs rest t with
      | some g => some g
      | none => relevantGrade qs e t

theorem evalStep_answers (qs : Questions) (s : PanelState) (e : EvalEvent) :
    (evalStep qs s e).answers = s.answers := by
  unfold evalStep handleSubmit
  cases jsOrOpt (some e.answerText) (s.answers.get e.question) with
  | none => rfl
  | some a =>
    by_cases ht : jsTrim a = ""
    · simp [ht]
    · simp only [ht, if_false]
      cases e.resp with
      | err => rfl
      | ok g fb =>
        cases qs.tech_questions.find? (fun tq => tq.question = e.question) <;> rfl

theorem evalStep_techStackGrades (qs : Questions) (s : PanelState)
    (e : EvalEvent) (t : String) (h : s.answers.get e.question = none) :
    (evalStep qs s e).techStackGrades.get t =
      match relevantGrade qs e t with
      | some g => some g
      | none => s.techStackGrades.get t := by
  unfold evalStep handleSubmit relevantGrade
  rw [h]
  by_cases ha : e.answerText = ""
  · have h0 : jsTrim "" = "" := rfl
    simp [jsOrOpt, ha, h0]
  · simp only [jsOrOpt, ha, if_neg ha]
    by_cases ht : jsTrim e.answerText = ""
    · simp [ht]
    · simp only [ht, if_false]
      cases e.resp with
      | err => rfl
      | ok g fb =>
        cases hfind : qs.tech_questions.find? (fun tq => tq.question = e.question) with
        | none => rfl
        | some tq =>
          simp only [JsMap.get_set]
          by_cases hteq : t = tq.technology <;> simp [hteq]

theorem applyEvals_techStackGrades (qs : Questions) (evs : List EvalEvent) :
    ∀ s : PanelState, s.answers.entries = [] → ∀ t : String,
      (applyEvals qs s evs).techStackGrades.get t =
        match lastRelevant qs evs t with
        | some g => some g
        | none => s.techStackGrades.get t := by
  induction evs with
  | nil => intro s _ t; simp [applyEvals, lastRelevant]
  | cons e rest ih =>
    intro s h t
    have hans : (evalStep qs s e).answers = s.answers := evalStep_answers qs s e
    have h' : (evalStep qs s e).answers.entries = [] := by rw [hans]; exact h
    have hget : s.answers.get e.question = none := by
      unfold JsMap.get
      rw [h]
      rfl
    have hstep := evalStep_techStackGrades qs s e t hget
    have hfold : applyEvals qs s (e :: rest) = applyEvals qs (evalStep qs s e) rest := by
      simp [applyEvals]
    rw [hfold, ih (evalStep qs s e) h' t, hstep]
    cases hl : lastRelevant qs rest t <;>
      cases hr : relevantGrade qs e t <;>
      simp [lastRelevant, hl, hr]

/-! ## Concrete fixtures used by witnesses -/

/-- A small concrete question set: one general and one technical question. -/
def qsEx : Questions :=
  { general_questions := ["Q1"]
    tech_questions := [{ question := "T1", technology := "Python" }]
    tech_stack := ["Python"] }

/-- A panel state in which question `Q1` has a recorded answer. -/
def answeredState : PanelState :=
  { initialPanelState with answers := JsMap.empty.set "Q1" "my answer" }

/-- State `answeredState` while a final-evaluation request is in flight. -/
def busyState : PanelState :=
  { answeredState with isEvaluating := true }

/-! ## Claim theorems -/

/-- C9: calling `stopRecording` when no recording session is active
(`isRecording` false) is a no-op that performs no effect and does not
throw: the recording flag, the active question and the media recorder —
the whole state — are unchanged. -/
theorem stopRecording_idle_noop (s : PanelState) (h : s.isRecording = false) :
    stopRecording s = (s, []) := by
  cases hm : s.mediaRecorder <;> simp [stopRecording, h, hm]

/-- Witness for C9 at a concrete idle state that still holds a stale
`MediaRecorder` object. -/
theorem stopRecording_idle_noop_witness :
    ({ answeredState with mediaRecorder := some "Q1" } : PanelState).isRecording = false ∧
    stopRecording { answeredState with mediaRecorder := some "Q1" } =
      ({ answeredState with mediaRecorder := some "Q1" }, []) :=
  ⟨rfl, stopRecording_idle_noop { answeredState with mediaRecorder := some "Q1" } rfl⟩

/-- C2: final evaluation is single-flight.  While `isEvaluating` is true
the `Generate Final Evaluation` button is disabled, so a second trigger is
a no-op; two consecutive triggers from a ready state produce exactly one
`/final-evaluation` request. -/
theorem finalEvaluation_single_flight (qs : Questions) (s : PanelState)
    (jd cn : String) :
    (s.isEvaluating = true → clickFinalEvaluation qs s jd cn = (s, [])) ∧
    (s.isEvaluating = false → s.answers.size ≠ 0 →
      ((clickFinalEvaluation qs s jd cn).2.filter Effect.isFinalEvalCall).length = 1 ∧
      clickFinalEvaluation qs (clickFinalEvaluation qs s jd cn).1 jd cn =
        ((clickFinalEvaluation qs s jd cn).1, [])) := by
  constructor
  · intro h
    simp [clickFinalEvaluation, h]
  · intro h1 h2
    have hbeq : (s.answers.size == 0) = false := beq_eq_false_iff_ne.mpr h2
    constructor
    · simp [clickFinalEvaluation, h1, hbeq, handleFinalEvaluationBegin, h2,
        Effect.isFinalEvalCall]
    · simp [clickFinalEvaluation, h1, hbeq, handleFinalEvaluationBegin, h2]

/-- Witness for C2: a busy state ignores the trigger; a ready state with
one answered question produces exactly one request and the follow-up
trigger is ignored. -/
theorem finalEvaluation_single_flight_witness :
    (busyState.isEvaluating = true ∧
      clickFinalEvaluation qsEx busyState "jd" "Alice" = (busyState, [])) ∧
    (answeredState.isEvaluating = false ∧ answeredState.answers.size ≠ 0 ∧
      ((clickFinalEvaluation qsEx answeredState "jd" "Alice").2.filter
          Effect.isFinalEvalCall).length = 1 ∧
      clickFinalEvaluation qsEx
          (clickFinalEvaluation qsEx answeredState "jd" "Alice").1 "jd" "Alice" =
        ((clickFinalEvaluation qsEx answeredState "jd" "Alice").1, [])) :=
  ⟨⟨rfl, (finalEvaluation_single_flight qsEx busyState "jd" "Alice").1 rfl⟩,
   ⟨rfl, by decide,
    (finalEvaluation_single_flight qsEx answeredState "jd" "Alice").2 rfl (by decide)⟩⟩

/-- The completion part of the final-evaluation handler always clears the
in-flight flag (the `finally` block). -/
theorem handleFinalEvaluationComplete_isEvaluating (s : PanelState)
    (resp : FinalResponse) :
    (handleFinalEvaluationComplete s resp).1.isEvaluating = false := by
  cases resp with
  | ok body => by_cases hb : body.success <;> simp [handleFinalEvaluationComplete, hb]
  | err msg => simp [handleFinalEvaluationComplete]

/-- The completion part never touches the answers map. -/
theorem handleFinalEvaluationComplete_answers (s : PanelState)
    (resp : FinalResponse) :
    (handleFinalEvaluationComplete s resp).1.answers = s.answers := by
  cases resp with
  | ok body => by_cases hb : body.success <;> simp [handleFinalEvaluationComplete, hb]
  | err msg => simp [handleFinalEvaluationComplete]

/-- Unfolding of a full final-evaluation run when at least one question is
answered. -/
theorem handleFinalEvaluation_of_answered (qs : Questions) (s : PanelState)
    (jd cn : String) (resp : FinalResponse) (h : s.answers.size ≠ 0) :
    handleFinalEvaluation qs s jd cn resp =
      ((handleFinalEvaluationComplete { s with isEvaluating := true } resp).1,
       Effect.finalEvalCall jd (mkQaPairs qs s) cn s.yearsExperience ::
         (handleFinalEvaluationComplete { s with isEvaluating := true } resp).2) := by
  unfold handleFinalEvaluation handleFinalEvaluationBegin
  rw [if_neg h, if_neg h]
  rfl

/-- C10: every completion of the final-evaluation workflow -- success,
server-signalled failure, or a thrown request error -- resets
`isEvaluating` to false, and a later trigger is not blocked: it again
produces exactly one `/final-evaluation` request. -/
theorem finalEvaluation_resets_isEvaluating (qs : Questions) (s : PanelState)
    (jd cn : String) (resp : FinalResponse) (h : s.answers.size ≠ 0) :
    (handleFinalEvaluation qs s jd cn resp).1.isEvaluating = false ∧
    ((clickFinalEvaluation qs (handleFinalEvaluation qs s jd cn resp).1 jd cn).2.filter
        Effect.isFinalEvalCall).length = 1 := by
  rw [handleFinalEvaluation_of_answered qs s jd cn resp h]
  have h1 := handleFinalEvaluationComplete_isEvaluating
    { s with isEvaluating := true } resp
  have h2 : (handleFinalEvaluationComplete { s with isEvaluating := true }
      resp).1.answers.size ≠ 0 := by
    rw [handleFinalEvaluationComplete_answers]
    exact h
  refine ⟨h1, ?_⟩
  have hbeq : ((handleFinalEvaluationComplete { s with isEvaluating := true }
      resp).1.answers.size == 0) = false := beq_eq_false_iff_ne.mpr h2
  simp [clickFinalEvaluation, h1, hbeq, handleFinalEvaluationBegin, h2,
    Effect.isFinalEvalCall]

/-- Witness for C10 at a concrete answered state with a thrown request
error. -/
theorem finalEvaluation_resets_isEvaluating_witness :
    answeredState.answers.size ≠ 0 ∧
    ((handleFinalEvaluation qsEx answeredState "jd" "Alice"
        (FinalResponse.err "boom")).1.isEvaluating = false ∧
      ((clickFinalEvaluation qsEx
          (handleFinalEvaluation qsEx answeredState "jd" "Alice"
            (FinalResponse.err "boom")).1 "jd" "Alice").2.filter
          Effect.isFinalEvalCall).length = 1) :=
  ⟨by decide,
   finalEvaluation_resets_isEvaluating qsEx answeredState "jd" "Alice"
     (FinalResponse.err "boom") (by decide)⟩

/-- C4: with zero answered questions the final-evaluation trigger is
rejected client-side with an alert and no backend call; with at least one
answered question exactly one request is built, its `qa_pairs` cover
every question of the question set in order, an unanswered question
carries the sentinel answer and a question without feedback carries the
empty string. -/
theorem finalEvaluation_request_payload (qs : Questions) (s : PanelState)
    (jd cn : String) :
    (s.answers.size = 0 →
      handleFinalEvaluationBegin qs s jd cn =
        (s, [Effect.alertMsg
          "Please answer at least one question before final evaluation."])) ∧
    (s.answers.size ≠ 0 →
      (handleFinalEvaluationBegin qs s jd cn).2 =
        [Effect.finalEvalCall jd (mkQaPairs qs s) cn s.yearsExperience] ∧
      (mkQaPairs qs s).map QaPair.question = allQuestions qs ∧
      ∀ p ∈ mkQaPairs qs s,
        (s.answers.get p.question = none → p.answer = "No answer provided") ∧
        (s.feedbacks.get p.question = none → p.feedback = "")) := by
  refine ⟨fun h => by simp [handleFinalEvaluationBegin, h], fun h => ?_⟩
  refine ⟨by simp [handleFinalEvaluationBegin, h], ?_, ?_⟩
  · simp [mkQaPairs, List.map_map]
    exact List.map_id (allQuestions qs)
  · intro p hp
    rcases List.mem_map.1 hp with ⟨q, _, rfl⟩
    exact ⟨fun hn => by simp [jsOrStr, hn], fun hn => by simp [jsOrStr, hn]⟩

/-- Witness for C4: from a state where only `Q1` of the two questions is
answered, one request is produced covering both questions. -/
theorem finalEvaluation_request_payload_witness :
    answeredState.answers.size ≠ 0 ∧
    ((handleFinalEvaluationBegin qsEx answeredState "jd" "Alice").2 =
        [Effect.finalEvalCall "jd" (mkQaPairs qsEx answeredState) "Alice"
          answeredState.yearsExperience] ∧
      (mkQaPairs qsEx answeredState).map QaPair.question = allQuestions qsEx ∧
      ∀ p ∈ mkQaPairs qsEx answeredState,
        (answeredState.answers.get p.question = none →
          p.answer = "No answer provided") ∧
        (answeredState.feedbacks.get p.question = none → p.feedback = "")) :=
  ⟨by decide,
   (finalEvaluation_request_payload qsEx answeredState "jd" "Alice").2 (by decide)⟩

/-- C3: while a recording session is active, the record-button area never
creates a second capture session: no `getUserMedia` acquisition is
performed; for the active question the click stops the session, for every
other question it does nothing. -/
theorem recording_is_exclusive (s : PanelState) (q : String) (granted : Bool)
    (h : s.isRecording = true) :
    ((clickRecordButton s q granted).2.filter Effect.isAcquireDevice = []) ∧
    (s.activeQuestion = some q → clickRecordButton s q granted = stopRecording s) ∧
    (s.activeQuestion ≠ some q → clickRecordButton s q granted = (s, [])) := by
  refine ⟨?_, fun ha => by simp [clickRecordButton, h, ha],
    fun ha => by simp [clickRecordButton, h, ha]⟩
  by_cases ha : s.activeQuestion = some q
  · cases hm : s.mediaRecorder <;>
      simp [clickRecordButton, stopRecording, h, ha, hm, Effect.isAcquireDevice]
  · simp [clickRecordButton, h, ha]

/-- A panel state currently recording question `Q1`. -/
def recordingState : PanelState :=
  { answeredState with
      isRecording := true
      activeQuestion := some "Q1"
      mediaRecorder := some "Q1" }

/-- A panel state whose only stored answer for `Q1` is a single space. -/
def blankAnswerState : PanelState :=
  { initialPanelState with answers := JsMap.empty.set "Q1" " " }

/-- A `JDInput` state with a whitespace-only job description. -/
def blankJDState : JDState :=
  { jd := "  "
    candidateName := "Alice"
    techStacks := []
    numQuestions := 5
    yearsExperience := "" }

/-- A `JDInput` state with a whitespace-only candidate name. -/
def blankNameState : JDState :=
  { jd := "real jd"
    candidateName := " "
    techStacks := []
    numQuestions := 5
    yearsExperience := "" }

/-- The initial app-level form state. -/
def emptyFormState : AppFormState :=
  { jobDescription := ""
    candidateName := ""
    questions := none
    techStacks := [] }

/-- Witness for C3 at a concrete state recording question `Q1`, with a
click on the other question `T1`. -/
theorem recording_is_exclusive_witness :
    recordingState.isRecording = true ∧
    (((clickRecordButton recordingState "T1" true).2.filter
        Effect.isAcquireDevice = []) ∧
      (recordingState.activeQuestion = some "T1" →
        clickRecordButton recordingState "T1" true = stopRecording recordingState) ∧
      (recordingState.activeQuestion ≠ some "T1" →
        clickRecordButton recordingState "T1" true = (recordingState, []))) :=
  ⟨rfl, recording_is_exclusive recordingState "T1" true rfl⟩

/-- C8: validation is entirely client-side.  An empty or whitespace-only
job description or candidate name makes `handleGenerate` refuse with an
alert and no request; a question whose stored answer is missing or
whitespace-only makes the submit action refuse with an alert and no
request. -/
theorem validation_blocks_requests :
    (∀ (s : JDState) (ctx : AppFormState) (resp : GenerateResponse),
      jsTrim s.jd = "" →
        handleGenerate s ctx resp =
          (ctx, [Effect.alertMsg "Please enter a job description"])) ∧
    (∀ (s : JDState) (ctx : AppFormState) (resp : GenerateResponse),
      jsTrim s.candidateName = "" →
        (handleGenerate s ctx resp).2.filter Effect.isGenerateCall = []) ∧
    (∀ (qs : Questions) (s : PanelState) (q : String) (resp : EvalResponse),
      (∀ a, s.answers.get q = some a → jsTrim a = "") →
        handleSubmit qs s q none resp =
          (s, [Effect.alertMsg "Please provide an answer before submitting."])) := by
  refine ⟨fun s ctx resp h => by simp [handleGenerate, h], ?_, ?_⟩
  · intro s ctx resp h
    by_cases hjd : jsTrim s.jd = ""
    · simp [handleGenerate, hjd, Effect.isGenerateCall]
    · simp [handleGenerate, hjd, h, Effect.isGenerateCall]
  · intro qs s q resp h
    unfold handleSubmit
    cases hg : s.answers.get q with
    | none => simp [jsOrOpt, hg]
    | some a =>
      have ht : jsTrim a = "" := h a hg
      have h0 : jsTrim "" = "" := rfl
      by_cases he : a = ""
      · simp [jsOrOpt, hg, he, h0]
      · simp [jsOrOpt, hg, he, ht]

/-- Witness for C8: whitespace-only job description, whitespace-only
candidate name, and a whitespace-only stored answer, each at concrete
inputs. -/
theorem validation_blocks_requests_witness :
    (jsTrim blankJDState.jd = "" ∧
      handleGenerate blankJDState emptyFormState GenerateResponse.err =
        (emptyFormState, [Effect.alertMsg "Please enter a job description"])) ∧
    (jsTrim blankNameState.candidateName = "" ∧
      (handleGenerate blankNameState emptyFormState
          GenerateResponse.err).2.filter Effect.isGenerateCall = []) ∧
    ((∀ a, blankAnswerState.answers.get "Q1" = some a → jsTrim a = "") ∧
      handleSubmit qsEx blankAnswerState "Q1" none EvalResponse.err =
        (blankAnswerState,
         [Effect.alertMsg "Please provide an answer before submitting."])) :=
  ⟨⟨by decide,
    validation_blocks_requests.1 blankJDState emptyFormState
      GenerateResponse.err (by decide)⟩,
   ⟨by decide,
    validation_blocks_requests.2.1 blankNameState emptyFormState
      GenerateResponse.err (by decide)⟩,
   ⟨by decide,
    validation_blocks_requests.2.2 qsEx blankAnswerState "Q1"
      EvalResponse.err (by decide)⟩⟩

/-- C1 counterexample: a successful transcription alone — the `onstop`
handler with a valid transcript, no explicit submit action anywhere —
already issues an `/evaluate-answer` request for the question. -/
theorem transcription_without_submit_counterexample :
    Effect.evaluateCall "Q1" "hello" none ∈
      (onstop qsEx initialPanelState "Q1"
        (TranscribeResponse.ok (some (some "hello")))
        (EvalResponse.ok 5 "good")).2 := by
  decide

/-- C1 (amended): a successful transcription whose transcript is not
whitespace-only automatically triggers `handleSubmit`, so exactly one
`/evaluate-answer` request is issued for the question without any
explicit submit action (the explicit submit button is an additional
trigger, not the only one). -/
theorem transcription_auto_submits (qs : Questions) (s : PanelState)
    (q t : String) (eresp : EvalResponse) (h : jsTrim t ≠ "") :
    ((onstop qs s q (TranscribeResponse.ok (some (some t))) eresp).2.filter
        Effect.isEvaluateCall) =
      [Effect.evaluateCall q t
        ((qs.tech_questions.find? (fun tq => tq.question = q)).map
          TechQuestion.technology)] := by
  have ht : t ≠ "" := fun e => h (by rw [e]; rfl)
  cases eresp with
  | ok g fb =>
    cases hf : qs.tech_questions.find? (fun tq => tq.question = q) <;>
      simp [onstop, handleSubmit, jsOrOpt, ht, h, hf, Effect.isEvaluateCall,
        Effect.isAlert]
  | err =>
    simp [onstop, handleSubmit, jsOrOpt, ht, h, Effect.isEvaluateCall]

/-- Witness for the amended C1 at a concrete transcript. -/
theorem transcription_auto_submits_witness :
    jsTrim "hello" ≠ "" ∧
    ((onstop qsEx initialPanelState "Q1"
        (TranscribeResponse.ok (some (some "hello")))
        (EvalResponse.ok 5 "good")).2.filter Effect.isEvaluateCall) =
      [Effect.evaluateCall "Q1" "hello"
        ((qsEx.tech_questions.find? (fun tq => tq.question = "Q1")).map
          TechQuestion.technology)] :=
  ⟨by decide,
   transcription_auto_submits qsEx initialPanelState "Q1" "hello"
     (EvalResponse.ok 5 "good") (by decide)⟩

/-- C7 counterexample: for an upload-path transcription response missing
the `transcript` field, `handleUpload` takes no error path: it performs
no alert and stores the undefined field value, silently accepting the
malformed payload. -/
theorem uploader_silent_on_missing_transcript_counterexample :
    (handleUpload initialUploaderState none).2.filter Effect.isAlert = [] ∧
    (handleUpload initialUploaderState none).1.transcript = none ∧
    (handleUpload initialUploaderState none).1 ≠ initialUploaderState :=
  ⟨rfl, rfl, by decide⟩

/-- C7 (amended): in the `QuestionsPanel` recording flow a transcription
response with a missing (or empty) `transcript` field takes the error
path — nothing is stored, no evaluate request is issued, and the failure
is surfaced as an alert; the `AudioUploader` upload path, by contrast,
performs no such check: it stores the missing field value silently with
no alert. -/
theorem malformed_transcript_handling :
    (∀ (qs : Questions) (s : PanelState) (q : String)
        (data : Option (Option String)) (eresp : EvalResponse),
      (data = none ∨ data = some none ∨ data = some (some "")) →
        onstop qs s q (TranscribeResponse.ok data) eresp =
          (s, [Effect.transcribeCall,
            Effect.alertMsg
              "Failed to transcribe audio: Invalid response format from server"])) ∧
    (∀ s : UploaderState,
      (handleUpload s none).1.transcript = none ∧
      (handleUpload s none).2.filter Effect.isAlert = []) := by
  constructor
  · rintro qs s q data eresp (rfl | rfl | rfl)
    · rfl
    · rfl
    · simp [onstop]
  · intro s
    exact ⟨rfl, rfl⟩

/-- Witness for the amended C7: a response whose `data` has no
`transcript` field, against a state that already holds an answer. -/
theorem malformed_transcript_handling_witness :
    ((some none : Option (Option String)) = none ∨
      (some none : Option (Option String)) = some none ∨
      (some none : Option (Option String)) = some (some "")) ∧
    onstop qsEx answeredState "Q1" (TranscribeResponse.ok (some none))
        EvalResponse.err =
      (answeredState,
       [Effect.transcribeCall,
        Effect.alertMsg
          "Failed to transcribe audio: Invalid response format from server"]) ∧
    ((handleUpload initialUploaderState none).1.transcript = none ∧
      (handleUpload initialUploaderState none).2.filter Effect.isAlert = []) :=
  ⟨Or.inr (Or.inl rfl),
   malformed_transcript_handling.1 qsEx answeredState "Q1" (some none)
     EvalResponse.err (Or.inr (Or.inl rfl)),
   malformed_transcript_handling.2 initialUploaderState⟩

/-- The `JDInput` state after the user types `50` into the numQuestions
input (with job description and candidate name filled in). -/
def typedFiftyState : JDState :=
  { jd := "Senior backend engineer"
    candidateName := "Alice"
    techStacks := []
    numQuestions := setNumQuestionsFromInput "50"
    yearsExperience := "4" }

/-- C5, evaluated at the failing input: typing `50` into the numQuestions
input stores 50 (`parseInt(v) || 5` neither clamps nor rejects; the HTML
`min`/`max` attributes do not constrain typed text), and `handleGenerate`
then sends `num_questions = 50` — outside [1,20] — to the backend. -/
theorem numQuestions_out_of_range_sent :
    setNumQuestionsFromInput "50" = 50 ∧
    (handleGenerate typedFiftyState emptyFormState GenerateResponse.err).2.filter
        Effect.isGenerateCall =
      [Effect.generateCall "Senior backend engineer" 50 "4"] ∧
    ¬((50 : Int) ≤ 20) := by
  decide

/-- The round-trip question set of the spec scenario: 2 general questions
and 3 technical questions tagged Python, Go, Python. -/
def c6Questions : Questions :=
  { general_questions := ["G1", "G2"]
    tech_questions :=
      [{ question := "TP1", technology := "Python" }
       , { question := "TG1", technology := "Go" }
       , { question := "TP2", technology := "Python" }]
    tech_stack := ["Python", "Go"] }

/-- Evaluating the three technical questions in order, with grades 4, 7
and finally 9 for the second Python question. -/
def c6Trace : List EvalEvent :=
  [{ question := "TP1", answerText := "answer one", resp := EvalResponse.ok 4 "fb1" }
   , { question := "TG1", answerText := "answer two", resp := EvalResponse.ok 7 "fb2" }
   , { question := "TP2", answerText := "answer three", resp := EvalResponse.ok 9 "fb3" }]

/-- C6: over any trace of submissions starting from the initial state,
the Technology Grade Aggregate maps each technology tag to the most
recently received grade among the technical questions tagged with it
(`lastRelevant`), and its key set is exactly the set of technologies for
which some technical question has been successfully evaluated.  In the
spec round-trip scenario (tags Python, Go, Python) the aggregate ends
with exactly the two keys Python and Go, Python holding the most recent
of its two grades. -/
theorem techStackGrades_most_recent (qs : Questions) (evs : List EvalEvent)
    (t : String) :
    ((applyEvals qs initialPanelState evs).techStackGrades.get t =
        lastRelevant qs evs t ∧
      (t ∈ (applyEvals qs initialPanelState evs).techStackGrades.keys ↔
        lastRelevant qs evs t ≠ none)) ∧
    ((applyEvals c6Questions initialPanelState c6Trace).techStackGrades.keys =
        ["Python", "Go"] ∧
      (applyEvals c6Questions initialPanelState c6Trace).techStackGrades.keys.length = 2 ∧
      (applyEvals c6Questions initialPanelState c6Trace).techStackGrades.get "Python" =
        some 9 ∧
      lastRelevant c6Questions c6Trace "Python" = some 9 ∧
      lastRelevant c6Questions c6Trace "Go" = some 7) := by
  have hmain : ∀ t' : String,
      (applyEvals qs initialPanelState evs).techStackGrades.get t' =
        lastRelevant qs evs t' := by
    intro t'
    have hc := applyEvals_techStackGrades qs evs initialPanelState rfl t'
    rw [hc]
    cases lastRelevant qs evs t' <;> rfl
  refine ⟨⟨hmain t, ?_⟩, by decide⟩
  rw [JsMap.mem_keys_iff_get_isSome, hmain t]
  cases lastRelevant qs evs t <;> simp
